import Mathlib

/-!
Verification of `tools/ort_rewriter_profiling/profile_analysis.py`.

The Python module aggregates per-operator-type timing samples from profiling
traces, discards warmup rounds, and diffs two aggregated runs.  This file is a
shallow embedding of that module: durations are exact rationals (the Python
code uses floats; no claim here depends on float rounding), Python lists become
`List`, the insertion-ordered `dict` comprehension built from the sorted
profile list becomes a last-occurrence-wins lookup over the sorted list, and
Python's stable `sorted(..., reverse=True)` becomes `List.mergeSort` with a
"greater or equal key" comparison (stable, ties keep source order — the same
contract CPython documents).
-/

namespace ProfileAnalysis

/-- `WARM_UP_ROUNDS = 1` (profile_analysis.py line 15). -/
def WARM_UP_ROUNDS : Nat := 1

/-- The synthetic roll-up label marker `"Batch-"` tested with `str.startswith`. -/
def batchTag : String := "Batch-"

/-- One `ProfileEntry` (lines 18-27): an operator-type label and its ordered
list of `(node_name, duration_in_ns)` samples. -/
structure ProfileEntry where
  op_type : String
  entries : List (String × Int)
deriving Repr, DecidableEq

/-- `ProfileEntry.total_count` (lines 23-24): `len(self.entries) / iteration`.
Python true division; modelled in `ℚ`. -/
def ProfileEntry.total_count (p : ProfileEntry) (iteration : Nat) : ℚ :=
  (p.entries.length : ℚ) / (iteration : ℚ)

/-- `ProfileEntry.total_duration` (lines 26-27):
`sum(entry[1] for entry in self.entries) / iteration / 1000 / 1000`. -/
def ProfileEntry.total_duration (p : ProfileEntry) (iteration : Nat) : ℚ :=
  (((p.entries.map (fun e => e.2)).sum : ℤ) : ℚ) / (iteration : ℚ) / 1000 / 1000

/-- The warmup trim of `ModelProfile.__post_init__` (lines 41-47):
`entries[len(entries) // (WARM_UP_ROUNDS + iteration) * WARM_UP_ROUNDS :]`. -/
def trimEntries (iteration : Nat) (entries : List (String × Int)) :
    List (String × Int) :=
  entries.drop (entries.length / (WARM_UP_ROUNDS + iteration) * WARM_UP_ROUNDS)

/-- Apply the warmup trim to one accumulator. -/
def trimProfile (iteration : Nat) (p : ProfileEntry) : ProfileEntry :=
  { p with entries := trimEntries iteration p.entries }

/-- The sort key of `__post_init__` line 48-50: `sorted(self.op_profiles,
key=lambda x: x.total_duration(), reverse=True)`.  `total_duration()` uses the
default `iteration = 1`.  CPython's `sorted` with `reverse=True` is stable and
puts larger keys first, which is exactly a stable sort by the boolean
relation "key of `x` is ≥ key of `y`". -/
def descByDuration (x y : ProfileEntry) : Bool :=
  decide (ProfileEntry.total_duration y 1 ≤ ProfileEntry.total_duration x 1)

/-- `ModelProfile` (lines 30-37).  In this pure model `op_profiles` holds the
list as it stands after `__post_init__` ran (i.e. after the trim when
`with_warmup` was true); the derived dict is recomputed by
`ModelProfile.op_profiles_dict` below, which is sound because the list is
never mutated after construction.  The Python field `_with_warmup` is kept as
`with_warmup` (the trim-state flag). -/
structure ModelProfile where
  op_profiles : List ProfileEntry
  iteration : Nat
  model_name : Option String
  compiler_name : Option String
  with_warmup : Bool
deriving Repr, DecidableEq

/-- Construction of a `ModelProfile` including `__post_init__` (lines 39-53):
if `_with_warmup`, every accumulator's sample list is replaced by its warmup
trim; the sort + dict build of lines 48-53 touch no sample data and are
modelled as the derived view `ModelProfile.op_profiles_dict`. -/
def mkModelProfile (op_profiles : List ProfileEntry) (iteration : Nat)
    (model_name compiler_name : Option String) (with_warmup : Bool) :
    ModelProfile :=
  { op_profiles :=
      if with_warmup then op_profiles.map (trimProfile iteration)
      else op_profiles
    iteration := iteration
    model_name := model_name
    compiler_name := compiler_name
    with_warmup := with_warmup }

/-- The sorted list of lines 48-50. -/
def ModelProfile.sorted_profiles (mp : ModelProfile) : List ProfileEntry :=
  mp.op_profiles.mergeSort descByDuration

/-- `op_profiles_dict` (lines 51-53): `{p.op_type: p for p in sorted}` — a
Python dict comprehension keeps, for each key, the value of its *last*
insertion, hence lookup = last matching element of the sorted list. -/
def ModelProfile.op_profiles_dict (mp : ModelProfile) (op_type : String) :
    Option ProfileEntry :=
  mp.sorted_profiles.reverse.find? (fun p => p.op_type == op_type)

/-- Key-set membership of the dict: some accumulator carries this label. -/
def hasOp (mp : ModelProfile) (op_type : String) : Bool :=
  mp.op_profiles.any (fun p => p.op_type == op_type)

/-- `filter_op_profiles` (lines 55-63): rebuild from the filtered accumulator
list with `_with_warmup=False`, same iteration and names. -/
def ModelProfile.filter_op_profiles (mp : ModelProfile)
    (op_types : List String) : ModelProfile :=
  mkModelProfile
    (mp.op_profiles.filter (fun p => op_types.contains p.op_type))
    mp.iteration mp.model_name mp.compiler_name false

/-- `op_duration` (lines 65-70): the accumulator's `total_duration(iteration)`
when the label is a dict key, else `0`. -/
def ModelProfile.op_duration (mp : ModelProfile) (op_type : String) : ℚ :=
  match mp.op_profiles_dict op_type with
  | some p => p.total_duration mp.iteration
  | none => 0

/-- Python `int(...)`: truncation toward zero. -/
def ratTrunc (q : ℚ) : ℤ :=
  if 0 ≤ q then ⌊q⌋ else ⌈q⌉

/-- `op_count` (lines 72-77): `int(total_count(iteration) if present else 0)`. -/
def ModelProfile.op_count (mp : ModelProfile) (op_type : String) : ℤ :=
  ratTrunc (match mp.op_profiles_dict op_type with
    | some p => p.total_count mp.iteration
    | none => 0)

/-- Whether an accumulator carries the synthetic `"Batch-"` marker
(`op_profile.op_type.startswith("Batch-")`, line 87). -/
def isBatch (p : ProfileEntry) : Bool :=
  p.op_type.startsWith batchTag

/-- `total_op_count` (lines 79-80): sums `total_count(iteration)` over **all**
accumulators, `"Batch-"` ones included. -/
def ModelProfile.total_op_count (mp : ModelProfile) : ℚ :=
  (mp.op_profiles.map (fun p => p.total_count mp.iteration)).sum

/-- `total_duration` (lines 82-88): sums `total_duration(iteration)` over the
accumulators whose label does **not** start with `"Batch-"`. -/
def ModelProfile.total_duration (mp : ModelProfile) : ℚ :=
  ((mp.op_profiles.filter (fun p => !(isBatch p))).map
    (fun p => p.total_duration mp.iteration)).sum

/-! ### Diff reporter (`tabulate_diff`, lines 102-175) -/

/-- The label of the fixed summary row (line 157). -/
def totalTag : String := "Total"

/-- One row of the diff table: the dict built by `_construct_tabulate_dict`
(lines 121-136).  Counts are rationals because the `"Total"` row passes the
fractional `total_op_count()` where operator rows pass integers.  The `Diff%`
cell is `none` for the literal `"N/A"` marker, `some v` for a formatted
percentage `v` (already rounded to two decimal places). -/
structure DiffRow where
  opType : String
  diff : ℚ
  diffPercent : Option ℚ
  baseCount : ℚ
  compCount : ℚ
  basePerf : ℚ
  compPerf : ℚ
deriving Repr, DecidableEq

/-- Rounding to two decimal places, the idealization of Python's `:.2f`
format applied to `(comp - base) / base * 100` (line 119). -/
def roundTwo (q : ℚ) : ℚ :=
  ((round (q * 100) : ℤ) : ℚ) / 100

/-- `_diff_percent` (lines 118-119):
`f"{(comp - base) / base * 100:.2f}%" if base and comp else "N/A"`.
Python truthiness of a number is "nonzero", so the `"N/A"` branch is taken
exactly when `base = 0` or `comp = 0`. -/
def diff_percent (base comp : ℚ) : Option ℚ :=
  if base ≠ 0 ∧ comp ≠ 0 then some (roundTwo ((comp - base) / base * 100))
  else none

/-- `_construct_tabulate_dict` (lines 121-136); `_diff` (lines 115-116) is
inlined as `comp_perf - base_perf`. -/
def construct_tabulate_dict (op_type : String) (base_count comp_count : ℚ)
    (base_perf comp_perf : ℚ) : DiffRow :=
  { opType := op_type
    diff := comp_perf - base_perf
    diffPercent := diff_percent base_perf comp_perf
    baseCount := base_count
    compCount := comp_count
    basePerf := base_perf
    compPerf := comp_perf }

/-- The row built for one operator type (lines 141-147). -/
def opRow (base_report comp_report : ModelProfile) (op_type : String) :
    DiffRow :=
  construct_tabulate_dict op_type
    ((base_report.op_count op_type : ℤ) : ℚ)
    ((comp_report.op_count op_type : ℤ) : ℚ)
    (base_report.op_duration op_type)
    (comp_report.op_duration op_type)

/-- The fixed `"Total"` row (lines 155-163). -/
def totalRow (base_report comp_report : ModelProfile) : DiffRow :=
  construct_tabulate_dict totalTag
    base_report.total_op_count comp_report.total_op_count
    base_report.total_duration comp_report.total_duration

/-- One caller-supplied extra row spec (line 105): a name, a count extractor
and a duration extractor. -/
def ExtraRowSpec : Type :=
  String × (ModelProfile → ℚ) × (ModelProfile → ℚ)

/-- An extra row (lines 164-174): extractors applied to base and comparison. -/
def extraRow (base_report comp_report : ModelProfile) (s : ExtraRowSpec) :
    DiffRow :=
  construct_tabulate_dict s.1 (s.2.1 base_report) (s.2.1 comp_report)
    (s.2.2 base_report) (s.2.2 comp_report)

/-- Sort key of line 152-153: `sorted(..., key=lambda x: x["Diff"],
reverse=True)` — stable, larger `Diff` first. -/
def descByDiff (x y : DiffRow) : Bool :=
  decide (y.diff ≤ x.diff)

/-- The per-operator key list with `"Batch-"` labels removed (the
comprehension filter on line 150). -/
def nonBatchKeys (keyOrder : List String) : List String :=
  keyOrder.filter (fun t => !(t.startsWith batchTag))

/-- The unsorted per-operator rows of lines 139-151.  `keyOrder` stands for
the iteration order of the Python set
`set(base.op_profiles_dict) | set(comp.op_profiles_dict)` (line 148-149);
CPython does not specify that order (it depends on string hashing), so it is
an explicit parameter here, constrained by `EnumeratesKeys` below. -/
def opRows (base_report comp_report : ModelProfile) (keyOrder : List String) :
    List DiffRow :=
  (nonBatchKeys keyOrder).map (opRow base_report comp_report)

/-- `keyOrder` is a valid iteration order of the label-set union of line
148-149: duplicate-free, and containing exactly the labels present in either
aggregate. -/
def EnumeratesKeys (keyOrder : List String)
    (base_report comp_report : ModelProfile) : Prop :=
  keyOrder.Nodup
  ∧ ∀ t, t ∈ keyOrder ↔ (hasOp base_report t ∨ hasOp comp_report t)

/-- `tabulate_diff` (lines 102-175), up to the pure rendering sink
`tabulate.tabulate`: the sorted per-operator rows, then the `"Total"` row,
then the caller-supplied extra rows in order. -/
def tabulate_diff (base_report comp_report : ModelProfile)
    (keyOrder : List String) (additional_row_lambdas : List ExtraRowSpec) :
    List DiffRow :=
  (opRows base_report comp_report keyOrder).mergeSort descByDiff
    ++ totalRow base_report comp_report
      :: additional_row_lambdas.map (extraRow base_report comp_report)

/-! ### The `ortcpu` (Node-trace) path (`analyze_profile`, lines 178-197) -/

/-- The category tag selecting node events (line 184). -/
def nodeTag : String := "Node"

/-- One decoded trace event as far as `analyze_profile` reads it: the `cat`
field, the `dur` field (absent or present), `name` and `args["op_name"]`. -/
structure TraceEvent where
  cat : Option String
  dur : Option Int
  name : String
  op_name : String
deriving Repr, DecidableEq

/-- `report.setdefault(...)` + `entries.append(...)` (lines 187-188): append
one sample to the accumulator for `op_type`, creating it at the end of the
insertion-ordered dict when new. -/
def addSample (report : List ProfileEntry) (op_type : String)
    (sample : String × Int) : List ProfileEntry :=
  if report.any (fun p => p.op_type == op_type) then
    report.map (fun p =>
      if p.op_type == op_type then { p with entries := p.entries ++ [sample] }
      else p)
  else report ++ [⟨op_type, [sample]⟩]

/-- The event loop of lines 183-188: keep events with `cat == "Node"` and a
truthy (present and nonzero) `dur`, grouped by `args["op_name"]` in first-seen
order. -/
def buildNodeReport (events : List TraceEvent) : List ProfileEntry :=
  events.foldl
    (fun report e =>
      match e.cat, e.dur with
      | some c, some d =>
          if c == nodeTag ∧ d ≠ 0 then addSample report e.op_name (e.name, d)
          else report
      | _, _ => report)
    []

/-- The error CPython raises at line 190. -/
def typeErrorMsg : String := "TypeError: bound methods are unorderable"

/-- Line 190: `sorted(report.values(), key=lambda x: x.total_duration,
reverse=True)`.  The key is the *uncalled bound method* (contrast line 92-93,
which calls `x.total_duration()`), and CPython raises `TypeError` on the first
`<` between two method objects — i.e. whenever the list has at least two
elements; with zero or one element no comparison happens and the list is
returned as-is. -/
def sorted_node_report (report : List ProfileEntry) :
    Except String (List ProfileEntry) :=
  if report.length ≤ 1 then Except.ok report else Except.error typeErrorMsg

/-- `analyze_profile` (lines 178-197) up to file I/O and printing: the per-line
data `(op_type, total_count(), total_duration())` for each entry of the sorted
report, and the grand-total duration of line 195-197. -/
def analyze_profile (events : List TraceEvent) :
    Except String (List (String × ℚ × ℚ) × ℚ) :=
  match sorted_node_report (buildNodeReport events) with
  | Except.error e => Except.error e
  | Except.ok rs =>
      Except.ok
        (rs.map (fun r => (r.op_type, r.total_count 1, r.total_duration 1)),
          (rs.map (fun r => r.total_duration 1)).sum)

/-! ### CLI surface (`main`, lines 265-290) -/

/-- The `--type` choice `"ortcpu"`. -/
def ortcpuTag : String := "ortcpu"

/-- The `--type` choice `"nvtx"`. -/
def nvtxTag : String := "nvtx"

/-- argparse error for a missing required `--profile-path` (lines 267-269). -/
def missingPathMsg : String := "the following arguments are required: --profile-path"

/-- argparse error for a missing required `--type` (line 270-272). -/
def missingTypeMsg : String := "the following arguments are required: --type"

/-- argparse error for a `--type` value outside `choices` (line 271). -/
def badTypeMsg : String := "argument --type: invalid choice"

/-- argparse error for a missing `--iteration`: the parser declares it with
`required=True` unconditionally (lines 273-278). -/
def missingIterationMsg : String := "the following arguments are required: --iteration"

/-- The parsed argument record of lines 280-283. -/
structure Args where
  profile_path : String
  type : String
  iteration : Int
deriving Repr, DecidableEq

/-- The argparse surface declared in `main` (lines 266-280): all three flags
are `required=True`; `--type` additionally checks
`choices=["ortcpu", "nvtx"]`; `--iteration` is parsed with `type=int`.  Each
parameter is `none` when the flag was not supplied on the command line. -/
def parse_args (profile_path : Option String) (type_flag : Option String)
    (iteration : Option Int) : Except String Args :=
  match profile_path with
  | none => Except.error missingPathMsg
  | some p =>
    match type_flag with
    | none => Except.error missingTypeMsg
    | some t =>
      if t ≠ ortcpuTag ∧ t ≠ nvtxTag then Except.error badTypeMsg
      else
        match iteration with
        | none => Except.error missingIterationMsg
        | some it => Except.ok ⟨p, t, it⟩

/-! ### Heap model for the in-place trim (claim C10)

`ModelProfile.__post_init__` mutates the `ProfileEntry` objects it was handed:
`op_profile.entries = op_profile.entries[...]` (lines 42-47) rebinds the
`entries` attribute of each *shared* object, and the dataclass stores the
passed-in collection itself (no copy).  To state that frame effect we model
the object store explicitly: a heap is a list of `ProfileEntry` values and a
reference is an index into it. -/

/-- One step of the loop of lines 42-47 on the heap: trim the object that
reference `r` designates (a dangling reference leaves the heap unchanged;
it cannot arise from the Python code). -/
def trimAt (iteration : Nat) (heap : List ProfileEntry) (r : Nat) :
    List ProfileEntry :=
  match heap[r]? with
  | some p => heap.set r (trimProfile iteration p)
  | none => heap

/-- The whole `__post_init__` trim loop over the referenced accumulators. -/
def postInitHeap (iteration : Nat) (with_warmup : Bool)
    (heap : List ProfileEntry) (refs : List Nat) : List ProfileEntry :=
  if with_warmup then refs.foldl (trimAt iteration) heap else refs.foldl (fun h _ => h) heap

/-- The aggregate as the heap sees it: it stores the references themselves
(aliases), not copies of the objects. -/
structure ModelProfileRefs where
  refs : List Nat
  iteration : Nat
deriving Repr, DecidableEq

/-- Heap-level construction: run the `__post_init__` trim loop, store the
references unchanged. -/
def mkModelProfileHeap (heap : List ProfileEntry) (refs : List Nat)
    (iteration : Nat) (with_warmup : Bool) :
    List ProfileEntry × ModelProfileRefs :=
  (postInitHeap iteration with_warmup heap refs, ⟨refs, iteration⟩)

/-! ### Concrete data used by witnesses and counterexamples -/

/-- Operator label `"A"`. -/
def tagA : String := "A"

/-- Operator label `"B"`. -/
def tagB : String := "B"

/-- Operator label `"Add"`. -/
def addTag : String := "Add"

/-- Operator label `"MatMul"`. -/
def matmulTag : String := "MatMul"

/-- A one-accumulator aggregate: one `"MatMul"` sample of 2,000,000 ns,
iteration 1, trimming enabled (the trim is a no-op at length 1). -/
def mpEx : ModelProfile :=
  mkModelProfile [⟨matmulTag, [("m1", 2000000)]⟩] 1 none none true

/-- Base aggregate for the tie examples: `"B"` at 3 ms, `"A"` at 1 ms. -/
def baseTie : ModelProfile :=
  mkModelProfile
    [⟨tagB, [("b1", 3000000)]⟩, ⟨tagA, [("a1", 1000000)]⟩]
    1 none none false

/-- Comparison aggregate for the tie examples: `"B"` at 4 ms, `"A"` at 2 ms —
both operator types gained exactly 1 ms, so the two diff rows tie. -/
def compTie : ModelProfile :=
  mkModelProfile
    [⟨tagB, [("b1", 4000000)]⟩, ⟨tagA, [("a1", 2000000)]⟩]
    1 none none false

/-- Comparison aggregate with distinct deltas: `"B"` gained 2 ms, `"A"` gained
1 ms. -/
def compDistinct : ModelProfile :=
  mkModelProfile
    [⟨tagB, [("b1", 5000000)]⟩, ⟨tagA, [("a1", 2000000)]⟩]
    1 none none false

/-- A concrete `--profile-path` value. -/
def pathEx : String := "trace.json"

/-- A Node-trace input with two operator types, both `cat="Node"` with nonzero
durations. -/
def c8Events : List TraceEvent :=
  [⟨some nodeTag, some 1000000, "n1", matmulTag⟩,
   ⟨some nodeTag, some 2000000, "n2", addTag⟩]

/-- A heap of two accumulators with four samples each (iteration 1: the trim
drops the first 4 / (1 + 1) = 2 samples of each). -/
def heapEx : List ProfileEntry :=
  [⟨tagA, [("a1", 10), ("a2", 20), ("a3", 30), ("a4", 40)]⟩,
   ⟨tagB, [("b1", 1), ("b2", 2), ("b3", 3), ("b4", 4)]⟩]

end ProfileAnalysis

namespace ProfileAnalysis

/-- `find?` does not depend on the order of the list when at most one element
satisfies the predicate. -/
theorem find?_eq_of_perm_of_unique {α : Type} {l₁ l₂ : List α} {p : α → Bool}
    (hp : l₁.Perm l₂)
    (hu : ∀ x, x ∈ l₁ → ∀ y, y ∈ l₁ → p x = true → p y = true → x = y) :
    l₁.find? p = l₂.find? p := by
  cases h₁ : l₁.find? p with
  | none =>
    cases h₂ : l₂.find? p with
    | none => rfl
    | some y =>
      exact absurd (List.find?_some h₂)
        (List.find?_eq_none.mp h₁ y (hp.symm.subset (List.mem_of_find?_eq_some h₂)))
  | some x =>
    cases h₂ : l₂.find? p with
    | none =>
      exact absurd (List.find?_some h₁)
        (List.find?_eq_none.mp h₂ x (hp.subset (List.mem_of_find?_eq_some h₁)))
    | some y =>
      exact congrArg some
        (hu x (List.mem_of_find?_eq_some h₁)
          y (hp.symm.subset (List.mem_of_find?_eq_some h₂))
          (List.find?_some h₁) (List.find?_some h₂))

/-- The dict of a `ModelProfile` has an entry for a label exactly when some
accumulator of the aggregate carries that label (the sort of lines 48-53 is a
permutation, so it does not change the key set). -/
theorem dict_isSome_iff (mp : ModelProfile) (t : String) :
    (mp.op_profiles_dict t).isSome = true ↔ hasOp mp t = true := by
  simp [ModelProfile.op_profiles_dict, ModelProfile.sorted_profiles, hasOp,
    List.find?_isSome, List.any_eq_true]

/-- When the labels of the accumulators are pairwise distinct (the normal
case: parsers produce one accumulator per label), the sorted-dict lookup
coincides with a plain `find?` over the unsorted accumulator list.  Used to
evaluate lookups on concrete aggregates without running the sort. -/
theorem op_profiles_dict_eq_find? (mp : ModelProfile)
    (h : (mp.op_profiles.map (fun p => p.op_type)).Nodup) (t : String) :
    mp.op_profiles_dict t = mp.op_profiles.find? (fun p => p.op_type == t) := by
  apply find?_eq_of_perm_of_unique
  · exact (List.reverse_perm _).trans (List.mergeSort_perm _ _)
  · intro x hx y hy hpx hpy
    have hx' : x ∈ mp.op_profiles := by
      simpa [ModelProfile.sorted_profiles] using hx
    have hy' : y ∈ mp.op_profiles := by
      simpa [ModelProfile.sorted_profiles] using hy
    have hfx : x.op_type = t := by simpa using hpx
    have hfy : y.op_type = t := by simpa using hpy
    by_cases hxy : x = y
    · exact hxy
    · have hpw : mp.op_profiles.Pairwise (fun a b => a.op_type ≠ b.op_type) :=
        List.pairwise_map.mp h
      exact absurd (hfx.trans hfy.symm)
        (hpw.forall (fun a b hab => hab.symm) hx' hy' hxy)

/-- Splitting a mapped sum over a boolean predicate. -/
theorem sum_map_filter_split {α : Type} (f : α → ℚ) (pr : α → Bool)
    (l : List α) :
    (l.map f).sum
      = ((l.filter pr).map f).sum
        + ((l.filter (fun x => !(pr x))).map f).sum := by
  induction l with
  | nil => simp
  | cons a l ih =>
    cases h : pr a <;> simp [List.filter_cons, h, ih] <;> ring

/-- The diff-row comparison is transitive. -/
theorem descByDiff_trans (a b c : DiffRow) :
    descByDiff a b → descByDiff b c → descByDiff a c := by
  intro hab hbc
  simp only [descByDiff, decide_eq_true_eq] at hab hbc ⊢
  exact le_trans hbc hab

/-- The diff-row comparison is total. -/
theorem descByDiff_total (a b : DiffRow) :
    descByDiff a b || descByDiff b a := by
  simp only [descByDiff, Bool.or_eq_true, decide_eq_true_eq]
  exact le_total b.diff a.diff

/-- C1 — warmup trim (theorem below). With `W = WARM_UP_ROUNDS = 1` and
iteration `I`, construction with trimming replaces each sample list of length
`L` by its tail after the first `W * (L / (W + I))` samples. -/
theorem c1_warmup_trim (ops : List ProfileEntry) (iteration : Nat)
    (mn cn : Option String) :
    (mkModelProfile ops iteration mn cn true).op_profiles
        = ops.map (trimProfile iteration)
    ∧ (∀ p : ProfileEntry,
        (trimProfile iteration p).entries
          = p.entries.drop
              (WARM_UP_ROUNDS * (p.entries.length / (WARM_UP_ROUNDS + iteration)))
        ∧ (trimProfile iteration p).entries.length
          = p.entries.length - p.entries.length / (WARM_UP_ROUNDS + iteration)
        ∧ p.entries
          = p.entries.take
              (WARM_UP_ROUNDS * (p.entries.length / (WARM_UP_ROUNDS + iteration)))
            ++ (trimProfile iteration p).entries) := by
  refine ⟨rfl, fun p => ?_⟩
  have hblock : p.entries.length / (WARM_UP_ROUNDS + iteration) * WARM_UP_ROUNDS
      = WARM_UP_ROUNDS * (p.entries.length / (WARM_UP_ROUNDS + iteration)) :=
    Nat.mul_comm _ _
  refine ⟨?_, ?_, ?_⟩
  · simp [trimProfile, trimEntries, hblock]
  · simp only [trimProfile, trimEntries, List.length_drop]
    simp [WARM_UP_ROUNDS]
  · simp only [trimProfile, trimEntries, hblock]
    exact (List.take_append_drop _ _).symm

/-- C2 — `filter_op_profiles(S)` is a pure projection: its lookup keys are
exactly `S ∩ K` (a label is a key of the copy iff it is in `S` and was a key
of the source), iteration count and both name labels are carried over, the
trim flag of the copy is `False`, and the retained accumulators are the very
source accumulators (same values, sample sequences untouched — in particular
not trimmed a second time). -/
theorem c2_filter_is_pure_projection (mp : ModelProfile)
    (op_types : List String) :
    (∀ t, ((mp.filter_op_profiles op_types).op_profiles_dict t).isSome = true
        ↔ (op_types.contains t = true ∧ (mp.op_profiles_dict t).isSome = true))
    ∧ (mp.filter_op_profiles op_types).iteration = mp.iteration
    ∧ (mp.filter_op_profiles op_types).model_name = mp.model_name
    ∧ (mp.filter_op_profiles op_types).compiler_name = mp.compiler_name
    ∧ (mp.filter_op_profiles op_types).with_warmup = false
    ∧ ∀ p : ProfileEntry,
        p ∈ (mp.filter_op_profiles op_types).op_profiles
          ↔ (p ∈ mp.op_profiles ∧ op_types.contains p.op_type = true) := by
  refine ⟨fun t => ?_, rfl, rfl, rfl, rfl, fun p => ?_⟩
  · rw [dict_isSome_iff, dict_isSome_iff]
    simp only [hasOp, ModelProfile.filter_op_profiles, mkModelProfile,
      if_neg Bool.false_ne_true, List.any_eq_true, List.mem_filter,
      beq_iff_eq]
    constructor
    · rintro ⟨q, ⟨hq, hc⟩, ht⟩
      exact ⟨ht ▸ hc, q, hq, ht⟩
    · rintro ⟨hc, q, hq, ht⟩
      exact ⟨q, ⟨hq, ht ▸ hc⟩, ht⟩
  · simp [ModelProfile.filter_op_profiles, mkModelProfile, List.mem_filter]

/-- C6 — the documented asymmetry of the totals: `total_duration()` sums
per-iteration durations over exactly the accumulators whose label does not
start with `"Batch-"` (adding back the `"Batch-"` durations recovers the sum
over all accumulators), while `total_op_count()` sums per-iteration sample
counts over all accumulators, the `"Batch-"`-labelled ones included. -/
theorem c6_total_asymmetry (mp : ModelProfile) :
    mp.total_duration
        + ((mp.op_profiles.filter isBatch).map
            (fun p => p.total_duration mp.iteration)).sum
      = (mp.op_profiles.map (fun p => p.total_duration mp.iteration)).sum
    ∧ mp.total_op_count
      = (mp.op_profiles.map (fun p => p.total_count mp.iteration)).sum
    ∧ mp.total_op_count
      = ((mp.op_profiles.filter isBatch).map
            (fun p => p.total_count mp.iteration)).sum
        + ((mp.op_profiles.filter (fun p => !(isBatch p))).map
            (fun p => p.total_count mp.iteration)).sum := by
  refine ⟨?_, rfl, ?_⟩
  · rw [sum_map_filter_split (fun p => p.total_duration mp.iteration) isBatch
      mp.op_profiles]
    simp only [ModelProfile.total_duration]
    ring
  · show (mp.op_profiles.map (fun p => p.total_count mp.iteration)).sum = _
    rw [sum_map_filter_split (fun p => p.total_count mp.iteration) isBatch
      mp.op_profiles]

/-- C7 — lookups on an absent label: a label is in the lookup mapping iff some
accumulator carries it; `op_duration` and `op_count` return exactly `0` on an
absent label (no error is raised — totality of the Lean functions), and on a
present label they return the accumulator's `total_duration(iteration)` and
its `total_count(iteration)` truncated to an integer. -/
theorem c7_lookup_defaults (mp : ModelProfile) (t : String) :
    ((mp.op_profiles_dict t).isSome = true ↔ hasOp mp t = true)
    ∧ (mp.op_profiles_dict t = none →
        mp.op_duration t = 0 ∧ mp.op_count t = 0)
    ∧ ∀ p : ProfileEntry, mp.op_profiles_dict t = some p →
        mp.op_duration t = p.total_duration mp.iteration
        ∧ mp.op_count t = ratTrunc (p.total_count mp.iteration) := by
  refine ⟨dict_isSome_iff mp t, fun h => ?_, fun p h => ?_⟩
  · constructor
    · simp [ModelProfile.op_duration, h]
    · simp [ModelProfile.op_count, h, ratTrunc]
  · constructor
    · simp [ModelProfile.op_duration, h]
    · simp [ModelProfile.op_count, h]

/-- Witness for C7: on the concrete aggregate `mpEx`, the label `"Add"` is
absent and both lookups return `0`. -/
theorem c7_lookup_defaults_witness :
    mpEx.op_profiles_dict addTag = none
    ∧ mpEx.op_duration addTag = 0 ∧ mpEx.op_count addTag = 0 := by
  have hnd : (mpEx.op_profiles.map (fun p => p.op_type)).Nodup := by decide
  have h : mpEx.op_profiles_dict addTag = none := by
    rw [op_profiles_dict_eq_find? mpEx hnd addTag]
    rfl
  exact ⟨h, (c7_lookup_defaults mpEx addTag).2.1 h⟩

/-- The `"N/A"` marker appears exactly when one of the two durations is `0`. -/
theorem diff_percent_eq_none_iff (b c : ℚ) :
    diff_percent b c = none ↔ b = 0 ∨ c = 0 := by
  unfold diff_percent
  by_cases hb : b = 0
  · simp [hb]
  · by_cases hc : c = 0
    · simp [hb, hc]
    · simp [hb, hc]

/-- C5 — the percentage cell of a diff row: it is the `"N/A"` marker exactly
when the base duration is `0` or the comparison duration is `0` (in
particular whenever the label is absent from either aggregate, since absence
yields duration `0`); otherwise it is `(comp - base) / base * 100` rounded to
two decimal places. -/
theorem c5_diff_percent_cell (base_report comp_report : ModelProfile)
    (t : String) :
    ((opRow base_report comp_report t).diffPercent = none
      ↔ (base_report.op_duration t = 0 ∨ comp_report.op_duration t = 0))
    ∧ (base_report.op_profiles_dict t = none →
        (opRow base_report comp_report t).diffPercent = none)
    ∧ (comp_report.op_profiles_dict t = none →
        (opRow base_report comp_report t).diffPercent = none)
    ∧ (base_report.op_duration t ≠ 0 → comp_report.op_duration t ≠ 0 →
        (opRow base_report comp_report t).diffPercent
          = some (roundTwo
              ((comp_report.op_duration t - base_report.op_duration t)
                / base_report.op_duration t * 100))) := by
  have hcell : (opRow base_report comp_report t).diffPercent
      = diff_percent (base_report.op_duration t)
          (comp_report.op_duration t) := rfl
  refine ⟨?_, fun h => ?_, fun h => ?_, fun hb hc => ?_⟩
  · rw [hcell, diff_percent_eq_none_iff]
  · rw [hcell, diff_percent_eq_none_iff]
    exact Or.inl (by simp [ModelProfile.op_duration, h])
  · rw [hcell, diff_percent_eq_none_iff]
    exact Or.inr (by simp [ModelProfile.op_duration, h])
  · rw [hcell]
    simp [diff_percent, hb, hc]

/-- Witness for C5: with base duration 1 ms and comparison duration 2 ms for
label `"A"`, the percentage cell is the formatted value, not `"N/A"`. -/
theorem c5_diff_percent_cell_witness :
    baseTie.op_duration tagA ≠ 0
    ∧ compTie.op_duration tagA ≠ 0
    ∧ (opRow baseTie compTie tagA).diffPercent
        = some (roundTwo
            ((compTie.op_duration tagA - baseTie.op_duration tagA)
              / baseTie.op_duration tagA * 100)) := by
  have hndb : (baseTie.op_profiles.map (fun p => p.op_type)).Nodup := by decide
  have hndc : (compTie.op_profiles.map (fun p => p.op_type)).Nodup := by decide
  have hdb : baseTie.op_profiles_dict tagA
      = some ⟨tagA, [("a1", 1000000)]⟩ := by
    rw [op_profiles_dict_eq_find? baseTie hndb tagA]
    rfl
  have hdc : compTie.op_profiles_dict tagA
      = some ⟨tagA, [("a1", 2000000)]⟩ := by
    rw [op_profiles_dict_eq_find? compTie hndc tagA]
    rfl
  have hb : baseTie.op_duration tagA = 1 := by
    rw [ModelProfile.op_duration, hdb]
    show ((1000000 : ℚ)) / ((1 : Nat) : ℚ) / 1000 / 1000 = 1
    norm_num
  have hc : compTie.op_duration tagA = 2 := by
    rw [ModelProfile.op_duration, hdc]
    show ((2000000 : ℚ)) / ((1 : Nat) : ℚ) / 1000 / 1000 = 2
    norm_num
  have hb0 : baseTie.op_duration tagA ≠ 0 := by rw [hb]; norm_num
  have hc0 : compTie.op_duration tagA ≠ 0 := by rw [hc]; norm_num
  exact ⟨hb0, hc0, (c5_diff_percent_cell baseTie compTie tagA).2.2.2 hb0 hc0⟩

/-- Evaluating `op_duration` through the unsorted `find?` when the labels are
pairwise distinct. -/
theorem op_duration_of_find? (mp : ModelProfile) (t : String)
    (p : ProfileEntry)
    (hnd : (mp.op_profiles.map (fun q => q.op_type)).Nodup)
    (hf : mp.op_profiles.find? (fun q => q.op_type == t) = some p) :
    mp.op_duration t = p.total_duration mp.iteration := by
  rw [ModelProfile.op_duration, op_profiles_dict_eq_find? mp hnd t, hf]

/-- `baseTie`: label `"A"` lasts 1 ms. -/
theorem baseTie_durA : baseTie.op_duration tagA = 1 := by
  rw [op_duration_of_find? baseTie tagA ⟨tagA, [("a1", 1000000)]⟩
    (by decide) rfl]
  show ((1000000 : ℚ)) / ((1 : Nat) : ℚ) / 1000 / 1000 = 1
  norm_num

/-- `baseTie`: label `"B"` lasts 3 ms. -/
theorem baseTie_durB : baseTie.op_duration tagB = 3 := by
  rw [op_duration_of_find? baseTie tagB ⟨tagB, [("b1", 3000000)]⟩
    (by decide) rfl]
  show ((3000000 : ℚ)) / ((1 : Nat) : ℚ) / 1000 / 1000 = 3
  norm_num

/-- `compTie`: label `"A"` lasts 2 ms. -/
theorem compTie_durA : compTie.op_duration tagA = 2 := by
  rw [op_duration_of_find? compTie tagA ⟨tagA, [("a1", 2000000)]⟩
    (by decide) rfl]
  show ((2000000 : ℚ)) / ((1 : Nat) : ℚ) / 1000 / 1000 = 2
  norm_num

/-- `compTie`: label `"B"` lasts 4 ms. -/
theorem compTie_durB : compTie.op_duration tagB = 4 := by
  rw [op_duration_of_find? compTie tagB ⟨tagB, [("b1", 4000000)]⟩
    (by decide) rfl]
  show ((4000000 : ℚ)) / ((1 : Nat) : ℚ) / 1000 / 1000 = 4
  norm_num

/-- `compDistinct`: label `"A"` lasts 2 ms. -/
theorem compDistinct_durA : compDistinct.op_duration tagA = 2 := by
  rw [op_duration_of_find? compDistinct tagA ⟨tagA, [("a1", 2000000)]⟩
    (by decide) rfl]
  show ((2000000 : ℚ)) / ((1 : Nat) : ℚ) / 1000 / 1000 = 2
  norm_num

/-- `compDistinct`: label `"B"` lasts 5 ms. -/
theorem compDistinct_durB : compDistinct.op_duration tagB = 5 := by
  rw [op_duration_of_find? compDistinct tagB ⟨tagB, [("b1", 5000000)]⟩
    (by decide) rfl]
  show ((5000000 : ℚ)) / ((1 : Nat) : ℚ) / 1000 / 1000 = 5
  norm_num

/-- Both diff rows of the `baseTie` / `compTie` pair carry the same delta. -/
theorem tieRows_eval :
    (opRow baseTie compTie tagA).diff = 1
    ∧ (opRow baseTie compTie tagB).diff = 1 := by
  constructor
  · show compTie.op_duration tagA - baseTie.op_duration tagA = 1
    rw [compTie_durA, baseTie_durA]
    norm_num
  · show compTie.op_duration tagB - baseTie.op_duration tagB = 1
    rw [compTie_durB, baseTie_durB]
    norm_num

/-- The diff rows of the `baseTie` / `compDistinct` pair carry distinct
deltas. -/
theorem distinctRows_eval :
    (opRow baseTie compDistinct tagA).diff = 1
    ∧ (opRow baseTie compDistinct tagB).diff = 2 := by
  constructor
  · show compDistinct.op_duration tagA - baseTie.op_duration tagA = 1
    rw [compDistinct_durA, baseTie_durA]
    norm_num
  · show compDistinct.op_duration tagB - baseTie.op_duration tagB = 2
    rw [compDistinct_durB, baseTie_durB]
    norm_num

/-- C3 (amended) — in the diff table the per-operator block (the first
`(opRows …).length` rows) is sorted in non-increasing (descending, ties
allowed) order of the difference and is a permutation of the constructed
per-operator rows (none lost, none duplicated); the `"Total"` row is the row
immediately after the per-operator block — before any caller-supplied extra
rows — regardless of its own computed difference.  (The claim's "strictly
descending" fails when two rows tie; see the counterexample.) -/
theorem c3_rows_sorted_total_last (base_report comp_report : ModelProfile)
    (keyOrder : List String) (extras : List ExtraRowSpec) :
    ((tabulate_diff base_report comp_report keyOrder extras).take
        (opRows base_report comp_report keyOrder).length).Pairwise
      (fun x y => y.diff ≤ x.diff)
    ∧ ((tabulate_diff base_report comp_report keyOrder extras).take
        (opRows base_report comp_report keyOrder).length).Perm
      (opRows base_report comp_report keyOrder)
    ∧ (tabulate_diff base_report comp_report keyOrder extras).drop
        (opRows base_report comp_report keyOrder).length
      = totalRow base_report comp_report
          :: extras.map (extraRow base_report comp_report) := by
  have hlen : ((opRows base_report comp_report keyOrder).mergeSort
      descByDiff).length = (opRows base_report comp_report keyOrder).length :=
    List.length_mergeSort _
  have htake : (tabulate_diff base_report comp_report keyOrder extras).take
      (opRows base_report comp_report keyOrder).length
      = (opRows base_report comp_report keyOrder).mergeSort descByDiff :=
    List.take_left' hlen
  have hdrop : (tabulate_diff base_report comp_report keyOrder extras).drop
      (opRows base_report comp_report keyOrder).length
      = totalRow base_report comp_report
          :: extras.map (extraRow base_report comp_report) :=
    List.drop_left' hlen
  refine ⟨?_, ?_, hdrop⟩
  · rw [htake]
    exact (List.sorted_mergeSort descByDiff_trans descByDiff_total
      (opRows base_report comp_report keyOrder)).imp
      (fun h => by simpa [descByDiff] using h)
  · rw [htake]
    exact List.mergeSort_perm _ _

/-- Counterexample for C3 as stated: with `baseTie` / `compTie` both operator
types gained exactly 1 ms, so the two per-operator rows tie and the block is
*not* strictly descending by difference. -/
theorem c3_counterexample :
    ¬ (((tabulate_diff baseTie compTie [tagA, tagB] []).take
        (opRows baseTie compTie [tagA, tagB]).length).Pairwise
      (fun x y => y.diff < x.diff)) := by
  have hAB : descByDiff (opRow baseTie compTie tagA)
      (opRow baseTie compTie tagB) = true := by
    simp only [descByDiff, decide_eq_true_eq, tieRows_eval.1, tieRows_eval.2]
    exact le_refl 1
  have hms : (opRows baseTie compTie [tagA, tagB]).mergeSort descByDiff
      = opRows baseTie compTie [tagA, tagB] := by
    apply List.mergeSort_of_sorted
    show List.Pairwise _
      (opRow baseTie compTie tagA :: opRow baseTie compTie tagB :: [])
    simp [List.pairwise_cons, hAB]
  have hlen : ((opRows baseTie compTie [tagA, tagB]).mergeSort
      descByDiff).length = (opRows baseTie compTie [tagA, tagB]).length :=
    List.length_mergeSort _
  have htake : (tabulate_diff baseTie compTie [tagA, tagB] []).take
      (opRows baseTie compTie [tagA, tagB]).length
      = (opRows baseTie compTie [tagA, tagB]).mergeSort descByDiff :=
    List.take_left' hlen
  intro hpw
  rw [htake, hms] at hpw
  have hlt : (opRow baseTie compTie tagB).diff
      < (opRow baseTie compTie tagA).diff := by
    have h := (List.pairwise_cons.mp hpw).1
    exact h _ (List.mem_cons_self _ _)
  rw [tieRows_eval.1, tieRows_eval.2] at hlt
  exact lt_irrefl 1 hlt

/-- C4 (amended) — the diff output is a pure function of the aggregates, the
extra-row specs and the *enumeration order* of the label-set union; whenever
the per-operator differences are pairwise distinct the enumeration order does
not matter either: any two enumerations of the same label set produce the
same row sequence.  (With tied differences the order of the tied rows follows
the enumeration order of the Python set, which CPython does not fix across
processes; see the counterexample.) -/
theorem c4_diff_deterministic_of_distinct
    (base_report comp_report : ModelProfile) (l₁ l₂ : List String)
    (extras : List ExtraRowSpec) (hperm : l₁.Perm l₂)
    (hdist : (opRows base_report comp_report l₁).Pairwise
      (fun x y => x.diff ≠ y.diff)) :
    tabulate_diff base_report comp_report l₁ extras
      = tabulate_diff base_report comp_report l₂ extras := by
  have hrowsperm : (opRows base_report comp_report l₁).Perm
      (opRows base_report comp_report l₂) :=
    (hperm.filter _).map _
  have hs₁ : ((opRows base_report comp_report l₁).mergeSort
      descByDiff).Pairwise (fun x y => y.diff ≤ x.diff) :=
    (List.sorted_mergeSort descByDiff_trans descByDiff_total _).imp
      (fun h => by simpa [descByDiff] using h)
  have hs₂ : ((opRows base_report comp_report l₂).mergeSort
      descByDiff).Pairwise (fun x y => y.diff ≤ x.diff) :=
    (List.sorted_mergeSort descByDiff_trans descByDiff_total _).imp
      (fun h => by simpa [descByDiff] using h)
  have hne₁ : ((opRows base_report comp_report l₁).mergeSort
      descByDiff).Pairwise (fun x y => x.diff ≠ y.diff) :=
    ((List.mergeSort_perm _ _).pairwise_iff (fun h => h.symm)).mpr hdist
  have hdist₂ : (opRows base_report comp_report l₂).Pairwise
      (fun x y => x.diff ≠ y.diff) :=
    (hrowsperm.pairwise_iff (fun h => h.symm)).mp hdist
  have hne₂ : ((opRows base_report comp_report l₂).mergeSort
      descByDiff).Pairwise (fun x y => x.diff ≠ y.diff) :=
    ((List.mergeSort_perm _ _).pairwise_iff (fun h => h.symm)).mpr hdist₂
  have hstrict₁ : ((opRows base_report comp_report l₁).mergeSort
      descByDiff).Pairwise (fun x y => y.diff < x.diff) :=
    (hs₁.and hne₁).imp (fun h => lt_of_le_of_ne h.1 h.2.symm)
  have hstrict₂ : ((opRows base_report comp_report l₂).mergeSort
      descByDiff).Pairwise (fun x y => y.diff < x.diff) :=
    (hs₂.and hne₂).imp (fun h => lt_of_le_of_ne h.1 h.2.symm)
  have hmsperm : ((opRows base_report comp_report l₁).mergeSort
      descByDiff).Perm ((opRows base_report comp_report l₂).mergeSort
      descByDiff) :=
    (List.mergeSort_perm _ _).trans
      (hrowsperm.trans (List.mergeSort_perm _ _).symm)
  have hanti : IsAntisymm DiffRow (fun x y => y.diff < x.diff) :=
    ⟨fun a b h1 h2 => absurd (lt_trans h1 h2) (lt_irrefl _)⟩
  have heq : (opRows base_report comp_report l₁).mergeSort descByDiff
      = (opRows base_report comp_report l₂).mergeSort descByDiff :=
    List.eq_of_perm_of_sorted hmsperm hstrict₁ hstrict₂
  show ((opRows base_report comp_report l₁).mergeSort descByDiff) ++ _
      = ((opRows base_report comp_report l₂).mergeSort descByDiff) ++ _
  rw [heq]

/-- Witness for C4 (amended): `"A"` gained 1 ms and `"B"` gained 2 ms — the
deltas are distinct, and both enumeration orders of the label set produce the
same table. -/
theorem c4_diff_deterministic_witness :
    ([tagA, tagB].Perm [tagB, tagA])
    ∧ ((opRows baseTie compDistinct [tagA, tagB]).Pairwise
        (fun x y => x.diff ≠ y.diff))
    ∧ tabulate_diff baseTie compDistinct [tagA, tagB] []
        = tabulate_diff baseTie compDistinct [tagB, tagA] [] := by
  have hperm : [tagA, tagB].Perm [tagB, tagA] := List.Perm.swap _ _ _
  have hdist : (opRows baseTie compDistinct [tagA, tagB]).Pairwise
      (fun x y => x.diff ≠ y.diff) := by
    show List.Pairwise _
      (opRow baseTie compDistinct tagA :: opRow baseTie compDistinct tagB :: [])
    refine List.pairwise_cons.mpr ⟨?_, List.pairwise_singleton _ _⟩
    intro y hy
    rcases List.mem_singleton.mp hy with rfl
    rw [distinctRows_eval.1, distinctRows_eval.2]
    norm_num
  exact ⟨hperm, hdist,
    c4_diff_deterministic_of_distinct baseTie compDistinct [tagA, tagB]
      [tagB, tagA] [] hperm hdist⟩

/-- Counterexample for C4 as stated: with the tied deltas of `baseTie` /
`compTie`, the two enumeration orders of the same two-label set give
different row sequences, so the output is *not* independent of the
(unspecified) set-iteration order. -/
theorem c4_counterexample :
    ([tagA, tagB].Perm [tagB, tagA])
    ∧ tabulate_diff baseTie compTie [tagA, tagB] []
        ≠ tabulate_diff baseTie compTie [tagB, tagA] [] := by
  have hAB : descByDiff (opRow baseTie compTie tagA)
      (opRow baseTie compTie tagB) = true := by
    simp only [descByDiff, decide_eq_true_eq, tieRows_eval.1, tieRows_eval.2]
    exact le_refl 1
  have hBA : descByDiff (opRow baseTie compTie tagB)
      (opRow baseTie compTie tagA) = true := by
    simp only [descByDiff, decide_eq_true_eq, tieRows_eval.1, tieRows_eval.2]
    exact le_refl 1
  have hms₁ : (opRows baseTie compTie [tagA, tagB]).mergeSort descByDiff
      = opRows baseTie compTie [tagA, tagB] := by
    apply List.mergeSort_of_sorted
    show List.Pairwise _
      (opRow baseTie compTie tagA :: opRow baseTie compTie tagB :: [])
    simp [List.pairwise_cons, hAB]
  have hms₂ : (opRows baseTie compTie [tagB, tagA]).mergeSort descByDiff
      = opRows baseTie compTie [tagB, tagA] := by
    apply List.mergeSort_of_sorted
    show List.Pairwise _
      (opRow baseTie compTie tagB :: opRow baseTie compTie tagA :: [])
    simp [List.pairwise_cons, hBA]
  have h₁ : tabulate_diff baseTie compTie [tagA, tagB] []
      = opRow baseTie compTie tagA :: opRow baseTie compTie tagB
          :: totalRow baseTie compTie :: [] := by
    show (opRows baseTie compTie [tagA, tagB]).mergeSort descByDiff
        ++ totalRow baseTie compTie :: [] = _
    rw [hms₁]
    rfl
  have h₂ : tabulate_diff baseTie compTie [tagB, tagA] []
      = opRow baseTie compTie tagB :: opRow baseTie compTie tagA
          :: totalRow baseTie compTie :: [] := by
    show (opRows baseTie compTie [tagB, tagA]).mergeSort descByDiff
        ++ totalRow baseTie compTie :: [] = _
    rw [hms₂]
    rfl
  refine ⟨List.Perm.swap _ _ _, fun h => ?_⟩
  rw [h₁, h₂] at h
  have hhead := congrArg List.head? h
  have hrow : opRow baseTie compTie tagA = opRow baseTie compTie tagB :=
    Option.some.inj hhead
  have : tagA = tagB := congrArg DiffRow.opType hrow
  exact absurd this (by decide)

/-- C8 — evidence of the code bug at line 190: the sort key is the *uncalled*
bound method `x.total_duration`, so CPython raises `TypeError` on the first
comparison; any Node-trace with two or more operator types (here `"MatMul"`
and `"Add"`, both `cat="Node"` with nonzero durations) makes `analyze_profile`
crash instead of printing the ranked report the claim describes. -/
theorem c8_analyze_profile_crashes :
    (buildNodeReport c8Events).length = 2
    ∧ analyze_profile c8Events = Except.error typeErrorMsg := by
  constructor
  · rfl
  · rfl

/-- Counterexample for C9 as stated: an `"ortcpu"` invocation without the
iteration flag is *rejected* — argparse declares `--iteration` with
`required=True` unconditionally (lines 273-278) — while the claim says it is
accepted. -/
theorem c9_counterexample :
    parse_args (some pathEx) (some ortcpuTag) none
      = Except.error missingIterationMsg := by
  rfl

/-- C9 (amended) — the iteration-count flag is required for *both* type
selectors: with a valid `--type` (either `"ortcpu"` or `"nvtx"`), parsing
fails with the missing-argument error whenever `--iteration` is absent, and
succeeds (the flag parsed as an integer) whenever it is present. -/
theorem c9_iteration_required_for_both (p t : String) (it : Int)
    (ht : t = ortcpuTag ∨ t = nvtxTag) :
    parse_args (some p) (some t) none = Except.error missingIterationMsg
    ∧ parse_args (some p) (some t) (some it) = Except.ok ⟨p, t, it⟩ := by
  have hcond : ¬ (t ≠ ortcpuTag ∧ t ≠ nvtxTag) := by
    rcases ht with h | h
    · exact fun hc => hc.1 h
    · exact fun hc => hc.2 h
  constructor
  · simp only [parse_args]
    rw [if_neg hcond]
  · simp only [parse_args]
    rw [if_neg hcond]

/-- Witness for C9 (amended), at `--type ortcpu` with `--iteration 5`. -/
theorem c9_iteration_required_witness :
    (ortcpuTag = ortcpuTag ∨ ortcpuTag = nvtxTag)
    ∧ parse_args (some pathEx) (some ortcpuTag) none
        = Except.error missingIterationMsg
    ∧ parse_args (some pathEx) (some ortcpuTag) (some 5)
        = Except.ok ⟨pathEx, ortcpuTag, 5⟩ := by
  have ht : ortcpuTag = ortcpuTag ∨ ortcpuTag = nvtxTag := Or.inl rfl
  exact ⟨ht,
    (c9_iteration_required_for_both pathEx ortcpuTag 5 ht).1,
    (c9_iteration_required_for_both pathEx ortcpuTag 5 ht).2⟩

/-- The trim loop of `__post_init__`, object by object: with duplicate-free
references, the heap cell behind each reference held by the aggregate is
replaced by its trimmed value, and every other cell is untouched. -/
theorem postInitHeap_getElem (iteration : Nat) (refs : List Nat) :
    ∀ (heap : List ProfileEntry), refs.Nodup → ∀ i : Nat,
      (refs.foldl (trimAt iteration) heap)[i]?
        = if i ∈ refs then (heap[i]?).map (trimProfile iteration)
          else heap[i]? := by
  induction refs with
  | nil =>
    intro heap _ i
    simp
  | cons r rest ih =>
    intro heap hnd i
    have hr : r ∉ rest := (List.nodup_cons.mp hnd).1
    have hrest : rest.Nodup := (List.nodup_cons.mp hnd).2
    show (rest.foldl (trimAt iteration) (trimAt iteration heap r))[i]? = _
    rw [ih (trimAt iteration heap r) hrest i]
    by_cases hir : i = r
    · subst hir
      rw [if_neg (fun h => hr h), if_pos (List.mem_cons_self _ _)]
      unfold trimAt
      cases hh : heap[i]? with
      | none => simp [hh]
      | some p =>
        rcases List.getElem?_eq_some_iff.mp hh with ⟨hlt, _⟩
        simp [hh, List.getElem?_set_self hlt]
    · have hsame : (trimAt iteration heap r)[i]? = heap[i]? := by
        unfold trimAt
        cases hh : heap[r]? with
        | none => rfl
        | some p => exact List.getElem?_set_ne (Ne.symm hir)
      rw [hsame]
      by_cases him : i ∈ rest
      · rw [if_pos him, if_pos (List.mem_cons_of_mem _ him)]
      · rw [if_neg him, if_neg (by simp [hir, him])]

/-- C10 — the trimming construction is an in-place frame effect on shared
objects: the aggregate stores the caller's references themselves (no copies),
and after construction with trimming enabled the heap object behind every
reference the aggregate holds carries the trimmed sample sequence — so the
caller, and any other aggregate sharing those references, observes the
trimmed sequences; objects not referenced by the aggregate are untouched. -/
theorem c10_construction_mutates_in_place (heap : List ProfileEntry)
    (refs : List Nat) (iteration : Nat) (hnd : refs.Nodup) :
    (mkModelProfileHeap heap refs iteration true).2.refs = refs
    ∧ ∀ i : Nat,
        (i ∈ refs →
          (mkModelProfileHeap heap refs iteration true).1[i]?
            = (heap[i]?).map (trimProfile iteration))
        ∧ (i ∉ refs →
          (mkModelProfileHeap heap refs iteration true).1[i]? = heap[i]?) := by
  refine ⟨rfl, fun i => ⟨fun hmem => ?_, fun hmem => ?_⟩⟩
  · show (refs.foldl (trimAt iteration) heap)[i]? = _
    rw [postInitHeap_getElem iteration refs heap hnd i, if_pos hmem]
  · show (refs.foldl (trimAt iteration) heap)[i]? = _
    rw [postInitHeap_getElem iteration refs heap hnd i, if_neg hmem]

/-- Witness for C10: on the two-object heap `heapEx` with references `[0, 1]`
and iteration 1, the object behind reference 0 holds the trimmed tail (the
last two of its four samples) after construction. -/
theorem c10_construction_mutates_witness :
    ([0, 1] : List Nat).Nodup
    ∧ (mkModelProfileHeap heapEx [0, 1] 1 true).2.refs = [0, 1]
    ∧ (mkModelProfileHeap heapEx [0, 1] 1 true).1[0]?
        = (heapEx[0]?).map (trimProfile 1)
    ∧ (heapEx[0]?).map (trimProfile 1)
        = some ⟨tagA, [("a3", 30), ("a4", 40)]⟩ := by
  have hnd : ([0, 1] : List Nat).Nodup := by decide
  refine ⟨hnd,
    (c10_construction_mutates_in_place heapEx [0, 1] 1 hnd).1,
    ((c10_construction_mutates_in_place heapEx [0, 1] 1 hnd).2 0).1
      (by decide), ?_⟩
  rfl

end ProfileAnalysis
